import Mathlib

/-!
Verification of the reachability evaluator of aws-connectivity-check.

The definitions below are a shallow embedding of
`connectivity_check/aws/security_groups.py` (the canonical single-RuleSet
evaluator) and of the result-rendering tail of `connectivity_check/__main__.py`.
Python mutation of the `ConnectivityEvaluation` object becomes explicit state
passing; Python `set`s become lists with deduplicating insertion; machine
integers become `Int`/`Nat`; the `for`-loops with early `return` become
structural recursion over lists.
-/

namespace ConnCheck

/-- An IPv4 network as produced by `ipaddress.ip_network` in strict mode:
a base address (< 2^32) and a prefix length.  Strict parsing guarantees the
host bits are zero, which `Valid` records. -/
structure AddressBlock where
  addr : Nat
  prefixLen : Nat
deriving Repr, DecidableEq

/-- What `ipaddress.ip_network(s)` (strict) guarantees about a parsed IPv4
network: prefix length at most 32, address below 2^32, and all host bits
zero (otherwise parsing raises ValueError). -/
def AddressBlock.Valid (b : AddressBlock) : Prop :=
  b.prefixLen ≤ 32 ∧ b.addr < 2 ^ 32 ∧ b.addr % 2 ^ (32 - b.prefixLen) = 0

/-- Dotted-quad rendering of a network, as the CIDR string appears inside
the evaluator's diagnostic messages. -/
def AddressBlock.render (b : AddressBlock) : String :=
  let o1 := b.addr / 2 ^ 24 % 256
  let o2 := b.addr / 2 ^ 16 % 256
  let o3 := b.addr / 2 ^ 8 % 256
  let o4 := b.addr % 256
  let p := b.prefixLen
  s!"{o1}.{o2}.{o3}.{o4}/{p}"

/-- `ipaddress._BaseNetwork.subnet_of`: `a.subnet_of(b)` holds iff
`b.network_address <= a.network_address` and
`a.broadcast_address <= b.broadcast_address`, where the broadcast address of
a network with prefix length p is its base address plus `2^(32-p) - 1`. -/
def subnet_of (a b : AddressBlock) : Bool :=
  decide (b.addr ≤ a.addr) &&
  decide (a.addr + 2 ^ (32 - a.prefixLen) - 1 ≤ b.addr + 2 ^ (32 - b.prefixLen) - 1)

/-- Python truthiness of an optional string: `None` and `""` are falsy,
every other string truthy. -/
def strTruthy : Option String → Bool
  | none => false
  | some s => decide (s ≠ "")

/-- `SecurityGroupRule.check_port`:
`dest_port >= self.from_port and dest_port <= self.to_port`. -/
def check_port (from_port to_port dest_port : Int) : Bool :=
  decide (from_port ≤ dest_port) && decide (dest_port ≤ to_port)

/-- `ConnectivityEvaluation`: success/failure messages and the set of
"near miss" context strings.  The Python `set` is modelled by a duplicate-free
list in insertion order. -/
structure ConnectivityEvaluation where
  success : Option String
  failure : Option String
  context : List String
deriving Repr, DecidableEq

/-- `ConnectivityEvaluation.__init__`. -/
def ConnectivityEvaluation.init : ConnectivityEvaluation :=
  { success := none, failure := none, context := [] }

/-- `ConnectivityEvaluation.mark_success`. -/
def ConnectivityEvaluation.mark_success (ev : ConnectivityEvaluation) (msg : String) :
    ConnectivityEvaluation :=
  { ev with success := some msg }

/-- `ConnectivityEvaluation.mark_failure` (also direct assignment of the
`failure` field, which `_check_egress_rules` performs). -/
def ConnectivityEvaluation.mark_failure (ev : ConnectivityEvaluation) (msg : String) :
    ConnectivityEvaluation :=
  { ev with failure := some msg }

/-- `ConnectivityEvaluation.add_context`: `self.context.add(msg)` on a
Python set, i.e. append unless already present. -/
def ConnectivityEvaluation.add_context (ev : ConnectivityEvaluation) (msg : String) :
    ConnectivityEvaluation :=
  if msg ∈ ev.context then ev else { ev with context := ev.context ++ [msg] }

/-- `SecurityGroupEgressRule`: the fields the constructor stores.  The IPv6
CIDR parameter is accepted by `__init__` but never stored.  `cidr_ipv4`
holds the parsed network (`self.addr_ipv4`); `None` models both an absent
and an empty CIDR string (Python falsiness of `self.addr_ipv4`). -/
structure SecurityGroupEgressRule where
  group_id : String
  group_name : String
  rule_id : String
  protocol : String
  from_port : Int
  to_port : Int
  cidr_ipv4 : Option AddressBlock
deriving Repr, DecidableEq

/-- `SecurityGroupEgressRule.__init__`, including the base-class
normalization `from_port = 0 if from_port == -1 else from_port` and
`to_port = 65535 if to_port == -1 else to_port`. -/
def SecurityGroupEgressRule.make (group_id group_name rule_id protocol : String)
    (from_port to_port : Int) (cidr_ipv4 : Option AddressBlock)
    (_cidr_ipv6 : Option String) : SecurityGroupEgressRule :=
  { group_id := group_id, group_name := group_name, rule_id := rule_id,
    protocol := protocol,
    from_port := if from_port = -1 then 0 else from_port,
    to_port := if to_port = -1 then 65535 else to_port,
    cidr_ipv4 := cidr_ipv4 }

/-- The near-miss message of `SecurityGroupEgressRule.check`:
`f"egress rule {self.rule_id} allows {dest_cidr} but not port {port}"`. -/
def egressNearMissMsg (rule_id : String) (dest_cidr : AddressBlock) (port : Int) : String :=
  let rid := rule_id
  let dc := dest_cidr.render
  s!"egress rule {rid} allows {dc} but not port {port}"

/-- `SecurityGroupEgressRule.check`.  Returns the Python return value
(`None`, the fall-through when no CIDR is stored, is falsy and modelled as
`false`) together with the updated evaluation. -/
def SecurityGroupEgressRule.check (r : SecurityGroupEgressRule)
    (dest_cidr : AddressBlock) (port : Int) (evaluation : ConnectivityEvaluation) :
    Bool × ConnectivityEvaluation :=
  match r.cidr_ipv4 with
  | none => (false, evaluation)
  | some addr =>
    if subnet_of dest_cidr addr && check_port r.from_port r.to_port port then
      (true, evaluation)
    else if subnet_of dest_cidr addr then
      (false, evaluation.add_context (egressNearMissMsg r.rule_id dest_cidr port))
    else
      (false, evaluation)

/-- `SecurityGroupIngressRule`: the fields the constructor stores (the IPv6
parameter is accepted but never stored).  `src_cidr_ipv4` holds the parsed
network `self.src_addr_ipv4`. -/
structure SecurityGroupIngressRule where
  group_id : String
  group_name : String
  rule_id : String
  protocol : String
  from_port : Int
  to_port : Int
  src_group_id : Option String
  src_cidr_ipv4 : Option AddressBlock
deriving Repr, DecidableEq

/-- `SecurityGroupIngressRule.__init__`, including the base-class port
normalization. -/
def SecurityGroupIngressRule.make (group_id group_name rule_id protocol : String)
    (from_port to_port : Int) (src_group_id : Option String)
    (src_cidr_ipv4 : Option AddressBlock) (_src_cidr_ipv6 : Option String) :
    SecurityGroupIngressRule :=
  { group_id := group_id, group_name := group_name, rule_id := rule_id,
    protocol := protocol,
    from_port := if from_port = -1 then 0 else from_port,
    to_port := if to_port = -1 then 65535 else to_port,
    src_group_id := src_group_id,
    src_cidr_ipv4 := src_cidr_ipv4 }

/-- Success message of the group-based branch of
`SecurityGroupIngressRule.check`. -/
def groupSuccessMsg (group_id rule_id src_group_id : String) (port : Int) : String :=
  let g := group_id
  let rid := rule_id
  let sg := src_group_id
  s!"{g} has group-based rule {rid} that allows {sg} on port {port}"

/-- Near-miss message of the group-based branch. -/
def groupNearMissMsg (group_id rule_id src_group_id : String) (port : Int) : String :=
  let g := group_id
  let rid := rule_id
  let sg := src_group_id
  s!"{g} has group-based rule {rid} that allows {sg} but not on port {port}"

/-- Success message of the CIDR-based branch. -/
def cidrSuccessMsg (group_id rule_id : String) (src_cidr : AddressBlock) (port : Int) : String :=
  let g := group_id
  let rid := rule_id
  let sc := src_cidr.render
  s!"{g} has cidr-based rule {rid} that allows {sc} on port {port}"

/-- Near-miss message of the CIDR-based branch. -/
def cidrNearMissMsg (group_id rule_id : String) (src_cidr : AddressBlock) (port : Int) : String :=
  let g := group_id
  let rid := rule_id
  let sc := src_cidr.render
  s!"{g} has cidr-based rule {rid} that allows {sc} but not on port {port}"

/-- The second `if` block of `SecurityGroupIngressRule.check`: the
CIDR-based match (`if self.src_addr_ipv4 and src_cidr_ipv4:`), followed by
the method's final `return False`. -/
def SecurityGroupIngressRule.checkCidr (r : SecurityGroupIngressRule)
    (src_cidr_ipv4 : Option AddressBlock) (port : Int)
    (evaluation : ConnectivityEvaluation) : Bool × ConnectivityEvaluation :=
  match r.src_cidr_ipv4, src_cidr_ipv4 with
  | some selfAddr, some srcAddr =>
    if subnet_of srcAddr selfAddr && check_port r.from_port r.to_port port then
      (true, evaluation.mark_success (cidrSuccessMsg r.group_id r.rule_id srcAddr port))
    else if subnet_of srcAddr selfAddr then
      (false, evaluation.add_context (cidrNearMissMsg r.group_id r.rule_id srcAddr port))
    else
      (false, evaluation)
  | _, _ => (false, evaluation)

/-- `SecurityGroupIngressRule.check`.  The first `if` block handles the
group-based match (both group ids truthy), possibly returning `True`
immediately or adding context and falling through; control then reaches the
CIDR block (`checkCidr`).  The `match` on `src_group_id` only extracts the
string for the message text; under the truthiness guard it is always
`some`. -/
def SecurityGroupIngressRule.check (r : SecurityGroupIngressRule)
    (src_group_id : Option String) (src_cidr_ipv4 : Option AddressBlock)
    (port : Int) (evaluation : ConnectivityEvaluation) :
    Bool × ConnectivityEvaluation :=
  if strTruthy r.src_group_id && strTruthy src_group_id then
    if r.src_group_id == src_group_id && check_port r.from_port r.to_port port then
      match src_group_id with
      | some sg => (true, evaluation.mark_success (groupSuccessMsg r.group_id r.rule_id sg port))
      | none => (true, evaluation)
    else if r.src_group_id == src_group_id then
      match src_group_id with
      | some sg => r.checkCidr src_cidr_ipv4 port
          (evaluation.add_context (groupNearMissMsg r.group_id r.rule_id sg port))
      | none => r.checkCidr src_cidr_ipv4 port evaluation
    else
      r.checkCidr src_cidr_ipv4 port evaluation
  else
    r.checkCidr src_cidr_ipv4 port evaluation

/-- `SecurityGroupRules`: the aggregate of the rules of one side's security
groups.  The Python set `src_group_ids` is a duplicate-free list in
insertion order (set iteration order is arbitrary; the list fixes one). -/
structure SecurityGroupRules where
  src_group_ids : List String
  egress_rules : List SecurityGroupEgressRule
  ingress_rules : List SecurityGroupIngressRule
deriving Repr, DecidableEq

/-- `SecurityGroupRules.__init__`. -/
def SecurityGroupRules.init : SecurityGroupRules :=
  { src_group_ids := [], egress_rules := [], ingress_rules := [] }

/-- `set.add` on the modelled string set. -/
def insertDedup (s : List String) (x : String) : List String :=
  if x ∈ s then s else s ++ [x]

/-- `SecurityGroupRules.add_egress_rule`: records the owning group id into
`src_group_ids` and appends the constructed egress rule; returns self. -/
def SecurityGroupRules.add_egress_rule (rs : SecurityGroupRules)
    (group_id group_name rule_id protocol : String) (from_port to_port : Int)
    (cidr_ipv4 : Option AddressBlock) (cidr_ipv6 : Option String) :
    SecurityGroupRules :=
  { rs with
    src_group_ids := insertDedup rs.src_group_ids group_id,
    egress_rules := rs.egress_rules ++
      [SecurityGroupEgressRule.make group_id group_name rule_id protocol
        from_port to_port cidr_ipv4 cidr_ipv6] }

/-- `SecurityGroupRules.add_ingress_rule`: appends the constructed ingress
rule and returns self.  (It does not touch `src_group_ids`.) -/
def SecurityGroupRules.add_ingress_rule (rs : SecurityGroupRules)
    (group_id group_name rule_id protocol : String) (from_port to_port : Int)
    (src_group_id : Option String) (src_cidr_ipv4 : Option AddressBlock)
    (src_cidr_ipv6 : Option String) : SecurityGroupRules :=
  { rs with
    ingress_rules := rs.ingress_rules ++
      [SecurityGroupIngressRule.make group_id group_name rule_id protocol
        from_port to_port src_group_id src_cidr_ipv4 src_cidr_ipv6] }

/-- The stage-1 failure message:
`f"no egress rule allows connections to {dest_cidr} port {dest_port}"`. -/
def egressFailureMsg (dest_cidr : AddressBlock) (dest_port : Int) : String :=
  let dc := dest_cidr.render
  let p := dest_port
  s!"no egress rule allows connections to {dc} port {p}"

/-- The `for rule in self.egress_rules` loop of
`SecurityGroupRules._check_egress_rules`: stop as soon as a rule's check
returns a truthy value; if none does, set the failure message. -/
def checkEgressList (rules : List SecurityGroupEgressRule) (dest_cidr : AddressBlock)
    (dest_port : Int) (evaluation : ConnectivityEvaluation) : ConnectivityEvaluation :=
  match rules with
  | [] => evaluation.mark_failure (egressFailureMsg dest_cidr dest_port)
  | r :: rest =>
    let res := r.check dest_cidr dest_port evaluation
    if res.1 then res.2 else checkEgressList rest dest_cidr dest_port res.2

/-- `SecurityGroupRules._check_egress_rules`. -/
def SecurityGroupRules._check_egress_rules (rs : SecurityGroupRules)
    (dest_cidr : AddressBlock) (dest_port : Int) (evaluation : ConnectivityEvaluation) :
    ConnectivityEvaluation :=
  checkEgressList rs.egress_rules dest_cidr dest_port evaluation

/-- The inner `for rule in dest_rules.ingress_rules` loop of
`SecurityGroupRules._check_ingress_rules`: returns whether some rule's check
returned truthy (causing the early `return`), with the updated evaluation. -/
def checkIngressList (rules : List SecurityGroupIngressRule) (src_group_id : String)
    (src_cidr : AddressBlock) (dest_port : Int) (evaluation : ConnectivityEvaluation) :
    Bool × ConnectivityEvaluation :=
  match rules with
  | [] => (false, evaluation)
  | r :: rest =>
    let res := r.check (some src_group_id) (some src_cidr) dest_port evaluation
    if res.1 then (true, res.2) else checkIngressList rest src_group_id src_cidr dest_port res.2

/-- The outer `for src_group_id in self.src_group_ids` loop of
`SecurityGroupRules._check_ingress_rules`. -/
def checkGroups (group_ids : List String) (dest_rules : SecurityGroupRules)
    (src_cidr : AddressBlock) (dest_port : Int) (evaluation : ConnectivityEvaluation) :
    ConnectivityEvaluation :=
  match group_ids with
  | [] => evaluation
  | g :: rest =>
    let res := checkIngressList dest_rules.ingress_rules g src_cidr dest_port evaluation
    if res.1 then res.2 else checkGroups rest dest_rules src_cidr dest_port res.2

/-- `SecurityGroupRules._check_ingress_rules`. -/
def SecurityGroupRules._check_ingress_rules (rs : SecurityGroupRules)
    (src_cidr : AddressBlock) (dest_port : Int) (dest_rules : SecurityGroupRules)
    (evaluation : ConnectivityEvaluation) : ConnectivityEvaluation :=
  checkGroups rs.src_group_ids dest_rules src_cidr dest_port evaluation

/-- `SecurityGroupRules.can_connect_to`: egress check, early return when
`evaluation.failure` is truthy, otherwise ingress check. -/
def SecurityGroupRules.can_connect_to (rs : SecurityGroupRules)
    (src_cidr dest_cidr : AddressBlock) (dest_port : Int)
    (dest_rules : SecurityGroupRules) : ConnectivityEvaluation :=
  let evaluation := ConnectivityEvaluation.init
  let evaluation := rs._check_egress_rules dest_cidr dest_port evaluation
  if strTruthy evaluation.failure then evaluation
  else rs._check_ingress_rules src_cidr dest_port dest_rules evaluation

/-- The result-rendering tail of `connectivity_check/__main__.py`: the exit
code the process produces from the evaluation.  `if analysis.success:` prints
and falls off the end of the script (exit 0); `elif analysis.failure:`
exits 3; `elif analysis.context:` exits 3; otherwise the script falls
through and exits 0. -/
def renderExitCode (analysis : ConnectivityEvaluation) : Nat :=
  if strTruthy analysis.success then 0
  else if strTruthy analysis.failure then 3
  else if analysis.context ≠ [] then 3
  else 0

/-- Whether an egress rule grants passage for this destination and port:
the boolean result of `SecurityGroupEgressRule.check` (which does not depend
on the evaluation being threaded through). -/
def egressMatches (r : SecurityGroupEgressRule) (dest_cidr : AddressBlock)
    (port : Int) : Bool :=
  (r.check dest_cidr port ConnectivityEvaluation.init).1

/-- Whether an ingress rule matches for this source group/CIDR and port:
the boolean result of `SecurityGroupIngressRule.check`. -/
def ingressMatches (r : SecurityGroupIngressRule) (src_group_id : Option String)
    (src_cidr : Option AddressBlock) (port : Int) : Bool :=
  (r.check src_group_id src_cidr port ConnectivityEvaluation.init).1

/-- One call of the `RuleSet` construction API, as the security-group lookup
collaborator performs them. -/
inductive AddOp where
  | egress (group_id group_name rule_id protocol : String) (from_port to_port : Int)
      (cidr_ipv4 : Option AddressBlock) (cidr_ipv6 : Option String)
  | ingress (group_id group_name rule_id protocol : String) (from_port to_port : Int)
      (src_group_id : Option String) (src_cidr_ipv4 : Option AddressBlock)
      (src_cidr_ipv6 : Option String)

/-- Apply one construction call to a rule set. -/
def applyOp (rs : SecurityGroupRules) : AddOp → SecurityGroupRules
  | .egress gid gname rid proto fp tp c4 c6 =>
    rs.add_egress_rule gid gname rid proto fp tp c4 c6
  | .ingress gid gname rid proto fp tp sg c4 c6 =>
    rs.add_ingress_rule gid gname rid proto fp tp sg c4 c6

/-- A `SecurityGroupRules` built through the public construction API from a
fresh instance, as `lookup` builds them. -/
def buildRules (ops : List AddOp) : SecurityGroupRules :=
  ops.foldl applyOp SecurityGroupRules.init

/-- 172.31.0.10/32 (the source address of the repository's test scenarios). -/
def srcCidr : AddressBlock := { addr := 2887712778, prefixLen := 32 }

/-- 172.31.128.10/32 (the destination address of the test scenarios). -/
def dstCidr : AddressBlock := { addr := 2887745546, prefixLen := 32 }

/-- 172.31.0.0/18. -/
def block18 : AddressBlock := { addr := 2887712768, prefixLen := 18 }

/-- 172.31.0.0/16. -/
def block16 : AddressBlock := { addr := 2887712768, prefixLen := 16 }

/-- 0.0.0.0/0. -/
def anyBlock : AddressBlock := { addr := 0, prefixLen := 0 }

/-- A source rule set whose only egress rule covers 172.31.0.0/18, all ports
(the `test_blocked_by_egress_rule_invalid_subnet` scenario). -/
def narrowEgressSrc : SecurityGroupRules :=
  SecurityGroupRules.init.add_egress_rule "sg-12345" "Origination" "sgr-12345-01" "tcp"
    0 65535 (some block18) none

/-- A source rule set whose only egress rule covers 172.31.0.0/16, ports
0..1024 (the `test_blocked_by_egress_rule_invalid_port` scenario). -/
def portLimitedEgressSrc : SecurityGroupRules :=
  SecurityGroupRules.init.add_egress_rule "sg-12345" "Origination" "sgr-12345-01" "tcp"
    0 1024 (some block16) none

/-- A source rule set whose only egress rule is fully open (0.0.0.0/0, all
ports). -/
def openEgressSrc : SecurityGroupRules :=
  SecurityGroupRules.init.add_egress_rule "sg-12345" "Origination" "sgr-12345-01" "tcp"
    0 65535 (some anyBlock) none

/-- A destination rule set with one group-based ingress rule referencing
sg-12345 on port 5432 (the `test_ingress_by_sg` scenario). -/
def groupIngressDest : SecurityGroupRules :=
  SecurityGroupRules.init.add_ingress_rule "sg-67890" "Destination" "sgr-67890-01" "-1"
    5432 5432 (some "sg-12345") none none

/-- A destination rule set whose first group-based ingress rule allows
sg-12345 only on port 80 and whose second allows it on port 5432. -/
def twoRuleDest : SecurityGroupRules :=
  (SecurityGroupRules.init.add_ingress_rule "sg-67890" "Destination" "sgr-67890-01" "-1"
    80 80 (some "sg-12345") none none).add_ingress_rule "sg-67890" "Destination"
    "sgr-67890-02" "-1" 5432 5432 (some "sg-12345") none none

/-- Modelled from the spec: mask an address to a prefix length, clearing the
low `32 - prefixLen` bits. -/
def maskTo (prefixLen addr : Nat) : Nat :=
  addr / 2 ^ (32 - prefixLen) * 2 ^ (32 - prefixLen)

/-- Modelled from the spec's words: standard prefix containment — outer's
network address masked to outer's prefix length equals inner's network
address masked to that same length, and inner's prefix length is at least
outer's. -/
def prefixContains (outer inner : AddressBlock) : Prop :=
  maskTo outer.prefixLen outer.addr = maskTo outer.prefixLen inner.addr ∧
  outer.prefixLen ≤ inner.prefixLen

/-- An address is representable by a block when it agrees with the block's
base address on all prefix bits. -/
def memBlock (b : AddressBlock) (x : Nat) : Prop :=
  x / 2 ^ (32 - b.prefixLen) = b.addr / 2 ^ (32 - b.prefixLen)

/-- The egress rule of `portLimitedEgressSrc` (172.31.0.0/16, ports
0..1024). -/
def portLimitedRule : SecurityGroupEgressRule :=
  SecurityGroupEgressRule.make "sg-12345" "Origination" "sgr-12345-01" "tcp" 0 1024
    (some block16) none

/-- The ingress rule of `groupIngressDest` (allows sg-12345 on port 5432). -/
def groupIngressRule : SecurityGroupIngressRule :=
  SecurityGroupIngressRule.make "sg-67890" "Destination" "sgr-67890-01" "-1" 5432 5432
    (some "sg-12345") none none

end ConnCheck

/-! ## Properties -/

namespace ConnCheck

theorem egressFailureMsg_ne_empty (dc : AddressBlock) (p : Int) : egressFailureMsg dc p ≠ "" := by
  unfold egressFailureMsg
  intro h
  have h2 := congrArg String.length h
  simp [String.length_append] at h2
  exact absurd h2.1.1.1.1 (by decide)

theorem add_context_success (ev : ConnectivityEvaluation) (m : String) :
    (ev.add_context m).success = ev.success := by
  unfold ConnectivityEvaluation.add_context
  split <;> rfl

theorem add_context_failure (ev : ConnectivityEvaluation) (m : String) :
    (ev.add_context m).failure = ev.failure := by
  unfold ConnectivityEvaluation.add_context
  split <;> rfl

theorem egress_check_fst (r : SecurityGroupEgressRule) (dc : AddressBlock) (p : Int)
    (ev : ConnectivityEvaluation) :
    (r.check dc p ev).1 = egressMatches r dc p := by
  unfold egressMatches SecurityGroupEgressRule.check
  rcases hr : r.cidr_ipv4 with _ | outer <;> simp [hr] <;> split_ifs <;> rfl

theorem egress_check_success (r : SecurityGroupEgressRule) (dc : AddressBlock) (p : Int)
    (ev : ConnectivityEvaluation) :
    ((r.check dc p ev).2).success = ev.success := by
  unfold SecurityGroupEgressRule.check
  rcases hr : r.cidr_ipv4 with _ | outer
  · rfl
  · simp only []
    split_ifs <;> simp [add_context_success]

theorem egress_check_failure (r : SecurityGroupEgressRule) (dc : AddressBlock) (p : Int)
    (ev : ConnectivityEvaluation) :
    ((r.check dc p ev).2).failure = ev.failure := by
  unfold SecurityGroupEgressRule.check
  rcases hr : r.cidr_ipv4 with _ | outer
  · rfl
  · simp only []
    split_ifs <;> simp [add_context_failure]

theorem checkEgressList_success (l : List SecurityGroupEgressRule) (dc : AddressBlock)
    (p : Int) (ev : ConnectivityEvaluation) :
    (checkEgressList l dc p ev).success = ev.success := by
  induction l generalizing ev with
  | nil => rfl
  | cons r rest ih =>
    simp only [checkEgressList]
    split
    · exact egress_check_success r dc p ev
    · rw [ih]
      exact egress_check_success r dc p ev

theorem checkEgressList_noMatch_failure (l : List SecurityGroupEgressRule)
    (dc : AddressBlock) (p : Int) (ev : ConnectivityEvaluation)
    (h : ∀ r ∈ l, egressMatches r dc p = false) :
    (checkEgressList l dc p ev).failure = some (egressFailureMsg dc p) := by
  induction l generalizing ev with
  | nil => rfl
  | cons r rest ih =>
    simp only [checkEgressList]
    have hf : (r.check dc p ev).1 = false := by
      rw [egress_check_fst]
      exact h r (List.mem_cons_self r rest)
    rw [hf]
    simp only [Bool.false_eq_true, if_false]
    exact ih _ (fun r' hr' => h r' (List.mem_cons_of_mem r hr'))

theorem strTruthy_some_of_ne (s : String) (h : s ≠ "") : strTruthy (some s) = true := by
  simp [strTruthy, h]

theorem egressMatches_eq_false (r : SecurityGroupEgressRule) (dc : AddressBlock) (p : Int)
    (h : ∀ outer, r.cidr_ipv4 = some outer →
      subnet_of dc outer = false ∨ check_port r.from_port r.to_port p = false) :
    egressMatches r dc p = false := by
  unfold egressMatches SecurityGroupEgressRule.check
  rcases hr : r.cidr_ipv4 with _ | outer
  · rfl
  · rcases h outer hr with h1 | h1 <;> simp [h1] <;> split_ifs <;> rfl

theorem can_connect_to_stage1_failure (rs : SecurityGroupRules) (sc dc : AddressBlock)
    (p : Int) (dr : SecurityGroupRules)
    (hM : ∀ r ∈ rs.egress_rules, egressMatches r dc p = false) :
    rs.can_connect_to sc dc p dr
      = checkEgressList rs.egress_rules dc p ConnectivityEvaluation.init := by
  have hfail := checkEgressList_noMatch_failure rs.egress_rules dc p ConnectivityEvaluation.init hM
  have htr : strTruthy (checkEgressList rs.egress_rules dc p ConnectivityEvaluation.init).failure
      = true := by
    rw [hfail]
    exact strTruthy_some_of_ne _ (egressFailureMsg_ne_empty dc p)
  simp only [SecurityGroupRules.can_connect_to, SecurityGroupRules._check_egress_rules, htr,
    if_true]

/-- C1: when no egress rule of the source rule set has a destination block
containing the destination CIDR with the destination port in range, the
evaluation carries exactly the stage-1 failure message, no success, and the
destination's ingress rules are never consulted (the result is the same for
every destination rule set). -/
theorem egress_gate_necessary (rs dr dr' : SecurityGroupRules) (sc dc : AddressBlock) (p : Int)
    (h : ∀ r ∈ rs.egress_rules, ∀ outer, r.cidr_ipv4 = some outer →
      subnet_of dc outer = false ∨ check_port r.from_port r.to_port p = false) :
    (rs.can_connect_to sc dc p dr).failure = some (egressFailureMsg dc p) ∧
    (rs.can_connect_to sc dc p dr).success = none ∧
    rs.can_connect_to sc dc p dr = rs.can_connect_to sc dc p dr' := by
  have hM : ∀ r ∈ rs.egress_rules, egressMatches r dc p = false :=
    fun r hr => egressMatches_eq_false r dc p (h r hr)
  have hcc := can_connect_to_stage1_failure rs sc dc p dr hM
  have hcc' := can_connect_to_stage1_failure rs sc dc p dr' hM
  refine ⟨?_, ?_, ?_⟩
  · rw [hcc]
    exact checkEgressList_noMatch_failure rs.egress_rules dc p ConnectivityEvaluation.init hM
  · rw [hcc]
    exact checkEgressList_success rs.egress_rules dc p ConnectivityEvaluation.init
  · rw [hcc, hcc']

theorem egress_gate_necessary_witness :
    (∀ r ∈ narrowEgressSrc.egress_rules, ∀ outer, r.cidr_ipv4 = some outer →
      subnet_of dstCidr outer = false ∨ check_port r.from_port r.to_port 5432 = false) ∧
    (narrowEgressSrc.can_connect_to srcCidr dstCidr 5432 groupIngressDest).failure
      = some (egressFailureMsg dstCidr 5432) ∧
    (narrowEgressSrc.can_connect_to srcCidr dstCidr 5432 groupIngressDest).success = none ∧
    narrowEgressSrc.can_connect_to srcCidr dstCidr 5432 groupIngressDest
      = narrowEgressSrc.can_connect_to srcCidr dstCidr 5432 SecurityGroupRules.init := by
  have h : ∀ r ∈ narrowEgressSrc.egress_rules, ∀ outer, r.cidr_ipv4 = some outer →
      subnet_of dstCidr outer = false ∨ check_port r.from_port r.to_port 5432 = false := by
    intro r hr outer ho
    simp only [narrowEgressSrc, SecurityGroupRules.add_egress_rule, SecurityGroupRules.init,
      List.nil_append, List.mem_singleton] at hr
    subst hr
    simp only [SecurityGroupEgressRule.make, Option.some.injEq] at ho
    subst ho
    left
    decide
  exact ⟨h, egress_gate_necessary narrowEgressSrc groupIngressDest SecurityGroupRules.init
    srcCidr dstCidr 5432 h⟩

theorem egress_check_near_miss (r : SecurityGroupEgressRule) (outer dc : AddressBlock)
    (p : Int) (hc : r.cidr_ipv4 = some outer) (hsub : subnet_of dc outer = true)
    (hport : check_port r.from_port r.to_port p = false) (ev : ConnectivityEvaluation) :
    r.check dc p ev = (false, ev.add_context (egressNearMissMsg r.rule_id dc p)) := by
  unfold SecurityGroupEgressRule.check
  rw [hc]
  simp [hsub, hport]

/-- C3: an egress rule whose destination block contains the destination CIDR
but whose port range excludes the port adds exactly the near-miss hint to
context and returns falsy, so scanning continues with later egress rules;
and when no egress rule grants passage the overall result still carries the
stage-1 failure string. -/
theorem egress_near_miss_accumulates (r : SecurityGroupEgressRule) (outer dc : AddressBlock)
    (p : Int) (hc : r.cidr_ipv4 = some outer) (hsub : subnet_of dc outer = true)
    (hport : check_port r.from_port r.to_port p = false) :
    (∀ ev, r.check dc p ev = (false, ev.add_context (egressNearMissMsg r.rule_id dc p))) ∧
    (∀ rest ev, checkEgressList (r :: rest) dc p ev
        = checkEgressList rest dc p (ev.add_context (egressNearMissMsg r.rule_id dc p))) ∧
    (∀ rs : SecurityGroupRules,
      (∀ r' ∈ rs.egress_rules, egressMatches r' dc p = false) →
      ∀ (sc : AddressBlock) (dr : SecurityGroupRules),
        (rs.can_connect_to sc dc p dr).failure = some (egressFailureMsg dc p)) := by
  refine ⟨fun ev => egress_check_near_miss r outer dc p hc hsub hport ev,
    fun rest ev => ?_, fun rs hM sc dr => ?_⟩
  · simp [checkEgressList, egress_check_near_miss r outer dc p hc hsub hport ev]
  · rw [can_connect_to_stage1_failure rs sc dc p dr hM]
    exact checkEgressList_noMatch_failure rs.egress_rules dc p ConnectivityEvaluation.init hM

theorem egress_near_miss_accumulates_witness :
    portLimitedRule.cidr_ipv4 = some block16 ∧
    subnet_of dstCidr block16 = true ∧
    check_port portLimitedRule.from_port portLimitedRule.to_port 5432 = false ∧
    ((∀ ev, portLimitedRule.check dstCidr 5432 ev
        = (false, ev.add_context (egressNearMissMsg portLimitedRule.rule_id dstCidr 5432))) ∧
     (∀ rest ev, checkEgressList (portLimitedRule :: rest) dstCidr 5432 ev
        = checkEgressList rest dstCidr 5432
            (ev.add_context (egressNearMissMsg portLimitedRule.rule_id dstCidr 5432))) ∧
     (∀ rs : SecurityGroupRules,
       (∀ r' ∈ rs.egress_rules, egressMatches r' dstCidr 5432 = false) →
       ∀ (sc : AddressBlock) (dr : SecurityGroupRules),
         (rs.can_connect_to sc dstCidr 5432 dr).failure
           = some (egressFailureMsg dstCidr 5432))) :=
  ⟨by decide, by decide, by decide,
    egress_near_miss_accumulates portLimitedRule block16 dstCidr 5432
      (by decide) (by decide) (by decide)⟩

theorem checkCidr_failure (r : SecurityGroupIngressRule) (sc : Option AddressBlock)
    (p : Int) (ev : ConnectivityEvaluation) :
    ((r.checkCidr sc p ev).2).failure = ev.failure := by
  unfold SecurityGroupIngressRule.checkCidr
  rcases r.src_cidr_ipv4 with _ | a <;> rcases sc with _ | b <;>
    simp [ConnectivityEvaluation.mark_success, add_context_failure] <;>
    split_ifs <;>
    simp [ConnectivityEvaluation.mark_success, add_context_failure]

theorem ingress_check_failure (r : SecurityGroupIngressRule) (gid : Option String)
    (sc : Option AddressBlock) (p : Int) (ev : ConnectivityEvaluation) :
    ((r.check gid sc p ev).2).failure = ev.failure := by
  unfold SecurityGroupIngressRule.check
  rcases gid with _ | g <;>
    split_ifs <;>
    simp [ConnectivityEvaluation.mark_success, checkCidr_failure, add_context_failure]

theorem checkIngressList_failure (l : List SecurityGroupIngressRule) (g : String)
    (sc : AddressBlock) (p : Int) (ev : ConnectivityEvaluation) :
    ((checkIngressList l g sc p ev).2).failure = ev.failure := by
  induction l generalizing ev with
  | nil => rfl
  | cons r rest ih =>
    simp only [checkIngressList]
    split
    · exact ingress_check_failure r (some g) (some sc) p ev
    · rw [ih]
      exact ingress_check_failure r (some g) (some sc) p ev

theorem checkGroups_failure (gs : List String) (dr : SecurityGroupRules) (sc : AddressBlock)
    (p : Int) (ev : ConnectivityEvaluation) :
    (checkGroups gs dr sc p ev).failure = ev.failure := by
  induction gs generalizing ev with
  | nil => rfl
  | cons g rest ih =>
    simp only [checkGroups]
    split
    · exact checkIngressList_failure dr.ingress_rules g sc p ev
    · rw [ih]
      exact checkIngressList_failure dr.ingress_rules g sc p ev

theorem checkEgressList_failure_cases (l : List SecurityGroupEgressRule) (dc : AddressBlock)
    (p : Int) (ev : ConnectivityEvaluation) :
    (checkEgressList l dc p ev).failure = ev.failure ∨
    (checkEgressList l dc p ev).failure = some (egressFailureMsg dc p) := by
  induction l generalizing ev with
  | nil => right; rfl
  | cons r rest ih =>
    simp only [checkEgressList]
    split
    · left
      exact egress_check_failure r dc p ev
    · rcases ih ((r.check dc p ev).2) with h | h
      · left
        rw [h]
        exact egress_check_failure r dc p ev
      · right
        exact h

/-- C4: the evaluation returned by `can_connect_to` never has both `success`
and `failure` set, and the fully inconclusive evaluation (neither set) is a
reachable terminal state. -/
theorem success_failure_mutual_exclusion :
    (∀ (rs dr : SecurityGroupRules) (sc dc : AddressBlock) (p : Int),
      (rs.can_connect_to sc dc p dr).success = none ∨
      (rs.can_connect_to sc dc p dr).failure = none) ∧
    ((openEgressSrc.can_connect_to srcCidr dstCidr 5432 SecurityGroupRules.init).success
        = none ∧
     (openEgressSrc.can_connect_to srcCidr dstCidr 5432 SecurityGroupRules.init).failure
        = none ∧
     (openEgressSrc.can_connect_to srcCidr dstCidr 5432 SecurityGroupRules.init).context
        = []) := by
  constructor
  · intro rs dr sc dc p
    by_cases htr : strTruthy (checkEgressList rs.egress_rules dc p
        ConnectivityEvaluation.init).failure = true
    · left
      have hcc : rs.can_connect_to sc dc p dr
          = checkEgressList rs.egress_rules dc p ConnectivityEvaluation.init := by
        simp only [SecurityGroupRules.can_connect_to, SecurityGroupRules._check_egress_rules,
          htr, if_true]
      rw [hcc]
      exact checkEgressList_success rs.egress_rules dc p ConnectivityEvaluation.init
    · right
      have hf := eq_false_of_ne_true htr
      have hcc : rs.can_connect_to sc dc p dr
          = checkGroups rs.src_group_ids dr sc p
              (checkEgressList rs.egress_rules dc p ConnectivityEvaluation.init) := by
        simp only [SecurityGroupRules.can_connect_to, SecurityGroupRules._check_egress_rules,
          SecurityGroupRules._check_ingress_rules, hf, Bool.false_eq_true, if_false]
      rw [hcc, checkGroups_failure]
      rcases checkEgressList_failure_cases rs.egress_rules dc p ConnectivityEvaluation.init
        with h | h
      · exact h
      · exfalso
        apply htr
        rw [h]
        exact strTruthy_some_of_ne _ (egressFailureMsg_ne_empty dc p)
  · exact ⟨by decide, by decide, by decide⟩

theorem mem_insertDedup_self (s : List String) (x : String) : x ∈ insertDedup s x := by
  unfold insertDedup
  split
  · assumption
  · simp

theorem add_ingress_rule_no_group_recorded :
    (SecurityGroupRules.init.add_ingress_rule "sg-12345" "Origination" "sgr-67890-01" "tcp"
        0 65535 none none none).src_group_ids = [] ∧
    "sg-12345" ∉ (SecurityGroupRules.init.add_ingress_rule "sg-12345" "Origination"
        "sgr-67890-01" "tcp" 0 65535 none none none).src_group_ids :=
  ⟨rfl, by decide⟩

/-- C5 (amended): `add_ingress_rule` appends the constructed rule and returns
the receiver, but records nothing into `src_group_ids` (it also leaves
`egress_rules` unchanged); only `add_egress_rule` records its owning group
id, so stage 2's iteration over `src_group_ids` sees exactly the groups
registered through `add_egress_rule`. -/
theorem add_ingress_rule_appends_only (rs : SecurityGroupRules)
    (group_id group_name rule_id protocol : String) (fp tp : Int)
    (sg : Option String) (c4 : Option AddressBlock) (c6 : Option String) :
    (rs.add_ingress_rule group_id group_name rule_id protocol fp tp sg c4 c6).ingress_rules
      = rs.ingress_rules
        ++ [SecurityGroupIngressRule.make group_id group_name rule_id protocol fp tp sg c4 c6] ∧
    (rs.add_ingress_rule group_id group_name rule_id protocol fp tp sg c4 c6).src_group_ids
      = rs.src_group_ids ∧
    (rs.add_ingress_rule group_id group_name rule_id protocol fp tp sg c4 c6).egress_rules
      = rs.egress_rules ∧
    (∀ (egroup_id egroup_name erule_id eprotocol : String) (efp etp : Int)
        (ec4 : Option AddressBlock) (ec6 : Option String),
      egroup_id ∈ (rs.add_egress_rule egroup_id egroup_name erule_id eprotocol efp etp
          ec4 ec6).src_group_ids) := by
  refine ⟨rfl, rfl, rfl, ?_⟩
  intro egroup_id egroup_name erule_id eprotocol efp etp ec4 ec6
  exact mem_insertDedup_self rs.src_group_ids egroup_id

theorem absent_success_exit_zero :
    (openEgressSrc.can_connect_to srcCidr dstCidr 5432 SecurityGroupRules.init).success
      = none ∧
    renderExitCode (openEgressSrc.can_connect_to srcCidr dstCidr 5432 SecurityGroupRules.init)
      = 0 ∧
    renderExitCode (openEgressSrc.can_connect_to srcCidr dstCidr 5432 SecurityGroupRules.init)
      ≠ 3 := by
  refine ⟨by decide, by decide, by decide⟩

/-- C6 (amended): the CLI exits 0 when the evaluation's `success` is truthy;
it exits 3 when `success` is falsy and either `failure` is truthy or the
context set is non-empty; but in the fully inconclusive outcome (`success`
and `failure` absent and `context` empty) the script falls through and also
exits 0, so a zero exit code does not imply `success` was present. -/
theorem exit_code_amended (ev : ConnectivityEvaluation) :
    (strTruthy ev.success = true → renderExitCode ev = 0) ∧
    (strTruthy ev.success = false → strTruthy ev.failure = true → renderExitCode ev = 3) ∧
    (strTruthy ev.success = false → strTruthy ev.failure = false → ev.context ≠ [] →
      renderExitCode ev = 3) ∧
    (strTruthy ev.success = false → strTruthy ev.failure = false → ev.context = [] →
      renderExitCode ev = 0) := by
  unfold renderExitCode
  exact ⟨fun h => by simp [h], fun h1 h2 => by simp [h1, h2],
    fun h1 h2 h3 => by simp [h1, h2, h3], fun h1 h2 h3 => by simp [h1, h2, h3]⟩

/-- C8: the sentinel `-1` is normalized at construction time (`from` to 0,
`to` to 65535) for both rule kinds, the port check is exact integer
comparison `from <= port <= to`, and a rule constructed with both bounds
`-1` accepts exactly the ports 0..65535. -/
theorem port_sentinel_normalization (group_id group_name rule_id protocol : String)
    (fp tp : Int) (c4 : Option AddressBlock) (c6 : Option String)
    (sg : Option String) (sc4 : Option AddressBlock) (sc6 : Option String) :
    ((SecurityGroupEgressRule.make group_id group_name rule_id protocol fp tp c4 c6).from_port
      = if fp = -1 then 0 else fp) ∧
    ((SecurityGroupEgressRule.make group_id group_name rule_id protocol fp tp c4 c6).to_port
      = if tp = -1 then 65535 else tp) ∧
    ((SecurityGroupIngressRule.make group_id group_name rule_id protocol fp tp sg sc4
        sc6).from_port = if fp = -1 then 0 else fp) ∧
    ((SecurityGroupIngressRule.make group_id group_name rule_id protocol fp tp sg sc4
        sc6).to_port = if tp = -1 then 65535 else tp) ∧
    (∀ from_port to_port p : Int,
      check_port from_port to_port p = true ↔ from_port ≤ p ∧ p ≤ to_port) ∧
    (∀ p : Int,
      check_port
        (SecurityGroupEgressRule.make group_id group_name rule_id protocol (-1) (-1)
          c4 c6).from_port
        (SecurityGroupEgressRule.make group_id group_name rule_id protocol (-1) (-1)
          c4 c6).to_port p = true
      ↔ 0 ≤ p ∧ p ≤ 65535) := by
  refine ⟨rfl, rfl, rfl, rfl, ?_, ?_⟩
  · intro from_port to_port p
    simp [check_port]
  · intro p
    simp [SecurityGroupEgressRule.make, check_port]

/-- C10: `mark_success` sets only the `success` field, leaving `failure` and
the accumulated context unchanged; consequently there are invocations of
`can_connect_to` that return success together with a non-empty context (a
first ingress rule matching the source group on the wrong port, a second on
the right port), so a non-empty context does not mean absence of
connectivity. -/
theorem mark_success_frame :
    (∀ (ev : ConnectivityEvaluation) (msg : String),
      (ev.mark_success msg).failure = ev.failure ∧
      (ev.mark_success msg).context = ev.context ∧
      (ev.mark_success msg).success = some msg) ∧
    ((openEgressSrc.can_connect_to srcCidr dstCidr 5432 twoRuleDest).success
        = some (groupSuccessMsg "sg-67890" "sgr-67890-02" "sg-12345" 5432) ∧
     (openEgressSrc.can_connect_to srcCidr dstCidr 5432 twoRuleDest).context
        = [groupNearMissMsg "sg-67890" "sgr-67890-01" "sg-12345" 5432]) := by
  exact ⟨fun ev msg => ⟨rfl, rfl, rfl⟩, by decide, by decide⟩

theorem buildRules_group_invariant (ops : List AddOp) (rs : SecurityGroupRules)
    (h : ∀ r ∈ rs.egress_rules, r.group_id ∈ rs.src_group_ids) :
    ∀ r ∈ (ops.foldl applyOp rs).egress_rules,
      r.group_id ∈ (ops.foldl applyOp rs).src_group_ids := by
  induction ops generalizing rs with
  | nil => exact h
  | cons op rest ih =>
    simp only [List.foldl_cons]
    apply ih
    cases op with
    | egress gid gname rid proto fp tp c4 c6 =>
      intro r hr
      simp only [applyOp, SecurityGroupRules.add_egress_rule] at hr ⊢
      rcases List.mem_append.mp hr with h1 | h1
      · have h2 := h r h1
        unfold insertDedup
        split
        · exact h2
        · exact List.mem_append_left _ h2
      · simp only [List.mem_singleton] at h1
        subst h1
        exact mem_insertDedup_self rs.src_group_ids gid
    | ingress gid gname rid proto fp tp sg c4 c6 =>
      intro r hr
      simp only [applyOp, SecurityGroupRules.add_ingress_rule] at hr ⊢
      exact h r hr

/-- C9: a source rule set built through the construction API with no egress
rules always fails at stage 1 with the exact failure message, never
consulting the destination's ingress rules; an empty `src_group_ids` forces
the egress-rule list to be empty (every `add_egress_rule` records its group
id); and whenever stage 2 runs (the stage-1 failure is falsy),
`src_group_ids` is non-empty. -/
theorem stage2_requires_groups (ops : List AddOp) (sc dc : AddressBlock) (p : Int)
    (dr : SecurityGroupRules) :
    ((buildRules ops).egress_rules = [] →
      (buildRules ops).can_connect_to sc dc p dr
        = { success := none, failure := some (egressFailureMsg dc p), context := [] }) ∧
    ((buildRules ops).src_group_ids = [] → (buildRules ops).egress_rules = []) ∧
    (strTruthy ((buildRules ops)._check_egress_rules dc p
        ConnectivityEvaluation.init).failure = false →
      (buildRules ops).src_group_ids ≠ []) := by
  have hinv : ∀ r ∈ (buildRules ops).egress_rules,
      r.group_id ∈ (buildRules ops).src_group_ids := by
    apply buildRules_group_invariant
    intro r hr
    cases hr
  have hge : (buildRules ops).src_group_ids = [] → (buildRules ops).egress_rules = [] := by
    intro hg
    cases hE : (buildRules ops).egress_rules with
    | nil => rfl
    | cons r rest =>
      exfalso
      have h2 := hinv r (by rw [hE]; exact List.mem_cons_self r rest)
      rw [hg] at h2
      cases h2
  refine ⟨?_, hge, ?_⟩
  · intro he
    have hM : ∀ r ∈ (buildRules ops).egress_rules, egressMatches r dc p = false := by
      rw [he]
      intro r hr
      cases hr
    rw [can_connect_to_stage1_failure _ sc dc p dr hM, he]
    rfl
  · intro hs hg
    have he := hge hg
    have hfail : ((buildRules ops)._check_egress_rules dc p
        ConnectivityEvaluation.init).failure = some (egressFailureMsg dc p) := by
      unfold SecurityGroupRules._check_egress_rules
      rw [he]
      rfl
    rw [hfail, strTruthy_some_of_ne _ (egressFailureMsg_ne_empty dc p)] at hs
    cases hs

theorem checkCidr_fst (r : SecurityGroupIngressRule) (sc : Option AddressBlock) (p : Int)
    (ev ev' : ConnectivityEvaluation) :
    (r.checkCidr sc p ev).1 = (r.checkCidr sc p ev').1 := by
  unfold SecurityGroupIngressRule.checkCidr
  rcases r.src_cidr_ipv4 with _ | a <;> rcases sc with _ | b <;> simp <;> split_ifs <;> rfl

theorem ingress_check_fst (r : SecurityGroupIngressRule) (gid : Option String)
    (sc : Option AddressBlock) (p : Int) (ev : ConnectivityEvaluation) :
    (r.check gid sc p ev).1 = ingressMatches r gid sc p := by
  unfold ingressMatches SecurityGroupIngressRule.check
  rcases gid with _ | g <;> split_ifs <;>
    first
    | rfl
    | exact checkCidr_fst r sc p _ _

theorem checkIngressList_noMatch_fst (l : List SecurityGroupIngressRule) (g : String)
    (sc : AddressBlock) (p : Int) (ev : ConnectivityEvaluation)
    (h : ∀ r' ∈ l, ingressMatches r' (some g) (some sc) p = false) :
    (checkIngressList l g sc p ev).1 = false := by
  induction l generalizing ev with
  | nil => rfl
  | cons r rest ih =>
    simp only [checkIngressList]
    have hf : (r.check (some g) (some sc) p ev).1 = false := by
      rw [ingress_check_fst]
      exact h r (List.mem_cons_self r rest)
    rw [hf]
    simp only [Bool.false_eq_true, if_false]
    exact ih _ (fun r' hr' => h r' (List.mem_cons_of_mem r hr'))

theorem ingress_check_group_match (r : SecurityGroupIngressRule) (g : String)
    (sc : Option AddressBlock) (p : Int) (ev : ConnectivityEvaluation)
    (hsgt : strTruthy r.src_group_id = true) (hsg : r.src_group_id = some g)
    (hport : check_port r.from_port r.to_port p = true) :
    r.check (some g) sc p ev
      = (true, ev.mark_success (groupSuccessMsg r.group_id r.rule_id g p)) := by
  have hg : strTruthy (some g) = true := hsg ▸ hsgt
  simp [SecurityGroupIngressRule.check, hsgt, hg, hsg, hport]

theorem checkIngressList_reaches (pre post : List SecurityGroupIngressRule)
    (r : SecurityGroupIngressRule) (g : String) (sc : AddressBlock) (p : Int)
    (hpre : ∀ r' ∈ pre, ingressMatches r' (some g) (some sc) p = false)
    (hsgt : strTruthy r.src_group_id = true) (hsg : r.src_group_id = some g)
    (hport : check_port r.from_port r.to_port p = true) (ev : ConnectivityEvaluation) :
    checkIngressList (pre ++ r :: post) g sc p ev
      = (true, ConnectivityEvaluation.mark_success ((checkIngressList pre g sc p ev).2)
          (groupSuccessMsg r.group_id r.rule_id g p)) := by
  induction pre generalizing ev with
  | nil =>
    simp only [List.nil_append, checkIngressList]
    rw [ingress_check_group_match r g (some sc) p ev hsgt hsg hport]
    simp
  | cons r' rest ih =>
    simp only [List.cons_append, checkIngressList]
    have hf : (r'.check (some g) (some sc) p ev).1 = false := by
      rw [ingress_check_fst]
      exact hpre r' (List.mem_cons_self r' rest)
    rw [hf]
    simp only [Bool.false_eq_true, if_false]
    exact ih (fun r'' h => hpre r'' (List.mem_cons_of_mem r' h)) _

theorem checkGroups_noMatch_prefix (gp rest : List String) (dr : SecurityGroupRules)
    (sc : AddressBlock) (p : Int) (ev : ConnectivityEvaluation)
    (h : ∀ g' ∈ gp, ∀ r' ∈ dr.ingress_rules, ingressMatches r' (some g') (some sc) p = false) :
    checkGroups (gp ++ rest) dr sc p ev
      = checkGroups rest dr sc p (checkGroups gp dr sc p ev) := by
  induction gp generalizing ev with
  | nil => rfl
  | cons g' gtl ih =>
    simp only [List.cons_append, checkGroups]
    have hf : (checkIngressList dr.ingress_rules g' sc p ev).1 = false :=
      checkIngressList_noMatch_fst _ _ _ _ _ (h g' (List.mem_cons_self g' gtl))
    rw [hf]
    simp only [Bool.false_eq_true, if_false]
    exact ih _ (fun g'' hg'' => h g'' (List.mem_cons_of_mem g' hg''))

/-- C2: when stage 1 grants passage and the stage-2 scan reaches a
destination ingress rule whose `src_group_id` is present and equals the
current source group id with the port in range, the evaluation's success is
set to exactly the group-based message and returned immediately: the scan
result does not depend on any later rule, and the whole invocation returns
the success-marked evaluation. -/
theorem group_match_wins_immediately (rs dr : SecurityGroupRules) (sc dc : AddressBlock)
    (p : Int) (gp gs : List String) (g : String)
    (pre post : List SecurityGroupIngressRule) (r : SecurityGroupIngressRule)
    (hgroups : rs.src_group_ids = gp ++ g :: gs)
    (hrules : dr.ingress_rules = pre ++ r :: post)
    (hstage1 : strTruthy (rs._check_egress_rules dc p ConnectivityEvaluation.init).failure
      = false)
    (hgp : ∀ g' ∈ gp, ∀ r' ∈ dr.ingress_rules, ingressMatches r' (some g') (some sc) p = false)
    (hpre : ∀ r' ∈ pre, ingressMatches r' (some g) (some sc) p = false)
    (hsgt : strTruthy r.src_group_id = true) (hsg : r.src_group_id = some g)
    (hport : check_port r.from_port r.to_port p = true) :
    (∀ (ev : ConnectivityEvaluation) (post' : List SecurityGroupIngressRule),
      checkIngressList (pre ++ r :: post) g sc p ev
        = (true, ConnectivityEvaluation.mark_success ((checkIngressList pre g sc p ev).2)
            (groupSuccessMsg r.group_id r.rule_id g p)) ∧
      checkIngressList (pre ++ r :: post) g sc p ev
        = checkIngressList (pre ++ r :: post') g sc p ev) ∧
    rs.can_connect_to sc dc p dr
      = ConnectivityEvaluation.mark_success
          ((checkIngressList pre g sc p (checkGroups gp dr sc p
              (rs._check_egress_rules dc p ConnectivityEvaluation.init))).2)
          (groupSuccessMsg r.group_id r.rule_id g p) ∧
    (rs.can_connect_to sc dc p dr).success
      = some (groupSuccessMsg r.group_id r.rule_id g p) := by
  have hscan := checkIngressList_reaches pre post r g sc p hpre hsgt hsg hport
  have htop : rs.can_connect_to sc dc p dr
      = ConnectivityEvaluation.mark_success
          ((checkIngressList pre g sc p (checkGroups gp dr sc p
              (rs._check_egress_rules dc p ConnectivityEvaluation.init))).2)
          (groupSuccessMsg r.group_id r.rule_id g p) := by
    have hcc : rs.can_connect_to sc dc p dr
        = checkGroups rs.src_group_ids dr sc p
            (rs._check_egress_rules dc p ConnectivityEvaluation.init) := by
      simp only [SecurityGroupRules.can_connect_to, SecurityGroupRules._check_ingress_rules,
        hstage1, Bool.false_eq_true, if_false]
    rw [hcc, hgroups, checkGroups_noMatch_prefix gp (g :: gs) dr sc p _ hgp]
    simp only [checkGroups, hrules, hscan]
    simp
  refine ⟨fun ev post' => ⟨hscan ev, ?_⟩, htop, ?_⟩
  · rw [hscan ev, checkIngressList_reaches pre post' r g sc p hpre hsgt hsg hport ev]
  · rw [htop]
    rfl

theorem group_match_wins_immediately_witness :
    openEgressSrc.src_group_ids = [] ++ "sg-12345" :: [] ∧
    groupIngressDest.ingress_rules = [] ++ groupIngressRule :: [] ∧
    strTruthy (openEgressSrc._check_egress_rules dstCidr 5432
        ConnectivityEvaluation.init).failure = false ∧
    (∀ g' ∈ ([] : List String), ∀ r' ∈ groupIngressDest.ingress_rules,
      ingressMatches r' (some g') (some srcCidr) 5432 = false) ∧
    (∀ r' ∈ ([] : List SecurityGroupIngressRule),
      ingressMatches r' (some "sg-12345") (some srcCidr) 5432 = false) ∧
    strTruthy groupIngressRule.src_group_id = true ∧
    groupIngressRule.src_group_id = some "sg-12345" ∧
    check_port groupIngressRule.from_port groupIngressRule.to_port 5432 = true ∧
    ((∀ (ev : ConnectivityEvaluation) (post' : List SecurityGroupIngressRule),
      checkIngressList ([] ++ groupIngressRule :: []) "sg-12345" srcCidr 5432 ev
        = (true, ConnectivityEvaluation.mark_success
            ((checkIngressList [] "sg-12345" srcCidr 5432 ev).2)
            (groupSuccessMsg groupIngressRule.group_id groupIngressRule.rule_id
              "sg-12345" 5432)) ∧
      checkIngressList ([] ++ groupIngressRule :: []) "sg-12345" srcCidr 5432 ev
        = checkIngressList ([] ++ groupIngressRule :: post') "sg-12345" srcCidr 5432 ev) ∧
    openEgressSrc.can_connect_to srcCidr dstCidr 5432 groupIngressDest
      = ConnectivityEvaluation.mark_success
          ((checkIngressList [] "sg-12345" srcCidr 5432 (checkGroups [] groupIngressDest
              srcCidr 5432 (openEgressSrc._check_egress_rules dstCidr 5432
                ConnectivityEvaluation.init))).2)
          (groupSuccessMsg groupIngressRule.group_id groupIngressRule.rule_id
            "sg-12345" 5432) ∧
    (openEgressSrc.can_connect_to srcCidr dstCidr 5432 groupIngressDest).success
      = some (groupSuccessMsg groupIngressRule.group_id groupIngressRule.rule_id
          "sg-12345" 5432)) :=
  ⟨by decide, by decide, by decide, by simp, by simp, by decide, by decide, by decide,
    group_match_wins_immediately openEgressSrc groupIngressDest srcCidr dstCidr 5432
      [] [] "sg-12345" [] [] groupIngressRule (by decide) (by decide) (by decide)
      (by simp) (by simp) (by decide) (by decide) (by decide)⟩

theorem aligned_interval_subset_iff (a b k m : Nat)
    (ha : a % 2 ^ k = 0) (hb : b % 2 ^ m = 0) :
    (b ≤ a ∧ a + 2 ^ k ≤ b + 2 ^ m) ↔ (k ≤ m ∧ a / 2 ^ m = b / 2 ^ m) := by
  have hKpos : 0 < 2 ^ k := Nat.pos_pow_of_pos k (by norm_num)
  have hPpos : 0 < 2 ^ m := Nat.pos_pow_of_pos m (by norm_num)
  have hbq : 2 ^ m * (b / 2 ^ m) = b := Nat.mul_div_cancel' (Nat.dvd_of_mod_eq_zero hb)
  constructor
  · rintro ⟨h1, h2⟩
    have hKP : 2 ^ k ≤ 2 ^ m := by omega
    constructor
    · exact (Nat.pow_le_pow_iff_right (by norm_num)).mp hKP
    · apply Nat.div_eq_of_lt_le
      · rw [Nat.mul_comm]
        omega
      · have : Nat.succ (b / 2 ^ m) * 2 ^ m = b / 2 ^ m * 2 ^ m + 2 ^ m := Nat.succ_mul _ _
        rw [this, Nat.mul_comm (b / 2 ^ m) (2 ^ m)]
        omega
  · rintro ⟨hkm, hdiv⟩
    have hKP : (2 : Nat) ^ k ∣ 2 ^ m := pow_dvd_pow 2 hkm
    have hble : b ≤ a := by
      have h3 : a / 2 ^ m * 2 ^ m ≤ a := Nat.div_mul_le_self a (2 ^ m)
      rw [hdiv, Nat.mul_comm] at h3
      omega
    refine ⟨hble, ?_⟩
    have hmod := Nat.div_add_mod a (2 ^ m)
    have hmlt : a % 2 ^ m < 2 ^ m := Nat.mod_lt a hPpos
    have hlt : a < b + 2 ^ m := by
      have hb2 : 2 ^ m * (a / 2 ^ m) = b := by rw [hdiv, hbq]
      omega
    have hdk : 2 ^ k ∣ b + 2 ^ m - a :=
      Nat.dvd_sub' (Nat.dvd_add (Nat.dvd_trans hKP (Nat.dvd_of_mod_eq_zero hb)) hKP) (Nat.dvd_of_mod_eq_zero ha)
    have hdk2 : 2 ^ k ≤ b + 2 ^ m - a := Nat.le_of_dvd (by omega) hdk
    omega

theorem aligned_prefix_member_iff (a b k m : Nat)
    (ha : a % 2 ^ k = 0) (haU : a < 2 ^ 32) (hk : k ≤ 32) :
    (k ≤ m ∧ a / 2 ^ m = b / 2 ^ m) ↔
    (∀ x, x < 2 ^ 32 → x / 2 ^ k = a / 2 ^ k → x / 2 ^ m = b / 2 ^ m) := by
  have hKpos : 0 < 2 ^ k := Nat.pos_pow_of_pos k (by norm_num)
  have hPpos : 0 < 2 ^ m := Nat.pos_pow_of_pos m (by norm_num)
  constructor
  · rintro ⟨hkm, hdiv⟩ x hx hxk
    have hsplit : (2 : Nat) ^ m = 2 ^ k * 2 ^ (m - k) := by
      rw [← pow_add]
      congr 1
      omega
    rw [hsplit, ← Nat.div_div_eq_div_mul, hxk, Nat.div_div_eq_div_mul, ← hsplit, hdiv]
  · intro h
    have hdiv : a / 2 ^ m = b / 2 ^ m := h a haU rfl
    refine ⟨?_, hdiv⟩
    by_contra hlt
    push_neg at hlt
    have hmk : 2 ^ m < 2 ^ k := Nat.pow_lt_pow_right (by norm_num) hlt
    have haq : 2 ^ k * (a / 2 ^ k) = a := Nat.mul_div_cancel' (Nat.dvd_of_mod_eq_zero ha)
    have hbound : a + 2 ^ k ≤ 2 ^ 32 := by
      have hdk : 2 ^ k ∣ 2 ^ 32 - a :=
        Nat.dvd_sub' (pow_dvd_pow 2 hk) (Nat.dvd_of_mod_eq_zero ha)
      have := Nat.le_of_dvd (by omega) hdk
      omega
    have hxU : a + 2 ^ m < 2 ^ 32 := by omega
    have hxk : (a + 2 ^ m) / 2 ^ k = a / 2 ^ k := by
      conv_lhs => rw [← haq]
      rw [Nat.mul_add_div hKpos]
      rw [Nat.div_eq_of_lt hmk]
      omega
    have hx := h (a + 2 ^ m) hxU hxk
    rw [Nat.add_div_right a hPpos, hdiv] at hx
    omega

/-- C7: on syntactically valid (strictly parsed) IPv4 blocks, the code's
containment test `inner.subnet_of(outer)` holds exactly when outer's network
address masked to outer's prefix length equals inner's masked to the same
length with inner's prefix at least outer's — equivalently, exactly when
every address representable by inner is representable by outer. -/
theorem subnet_of_iff_prefix_containment (outer inner : AddressBlock)
    (ho : outer.Valid) (hi : inner.Valid) :
    (subnet_of inner outer = true ↔ prefixContains outer inner) ∧
    (subnet_of inner outer = true ↔
      ∀ x, x < 2 ^ 32 → memBlock inner x → memBlock outer x) := by
  obtain ⟨hop, hoa, hom⟩ := ho
  obtain ⟨hip, hia, him⟩ := hi
  have hKpos : 0 < 2 ^ (32 - inner.prefixLen) := Nat.pos_pow_of_pos _ (by norm_num)
  have hPpos : 0 < 2 ^ (32 - outer.prefixLen) := Nat.pos_pow_of_pos _ (by norm_num)
  have hsub : subnet_of inner outer = true ↔
      (outer.addr ≤ inner.addr ∧
        inner.addr + 2 ^ (32 - inner.prefixLen)
          ≤ outer.addr + 2 ^ (32 - outer.prefixLen)) := by
    unfold subnet_of
    simp only [Bool.and_eq_true, decide_eq_true_eq]
    omega
  have hA := aligned_interval_subset_iff inner.addr outer.addr (32 - inner.prefixLen)
    (32 - outer.prefixLen) him hom
  have hB := aligned_prefix_member_iff inner.addr outer.addr (32 - inner.prefixLen)
    (32 - outer.prefixLen) him hia (by omega)
  constructor
  · rw [hsub, hA]
    unfold prefixContains maskTo
    constructor
    · rintro ⟨hkm, hdiv⟩
      refine ⟨?_, by omega⟩
      rw [hdiv]
    · rintro ⟨hmask, hpl⟩
      exact ⟨by omega, (Nat.eq_of_mul_eq_mul_right hPpos hmask).symm⟩
  · rw [hsub, hA, hB]
    unfold memBlock
    exact Iff.rfl

theorem subnet_of_iff_prefix_containment_witness :
    block16.Valid ∧ srcCidr.Valid ∧
    ((subnet_of srcCidr block16 = true ↔ prefixContains block16 srcCidr) ∧
     (subnet_of srcCidr block16 = true ↔
       ∀ x, x < 2 ^ 32 → memBlock srcCidr x → memBlock block16 x)) :=
  ⟨⟨by decide, by decide, by decide⟩, ⟨by decide, by decide, by decide⟩,
    subnet_of_iff_prefix_containment block16 srcCidr ⟨by decide, by decide, by decide⟩
      ⟨by decide, by decide, by decide⟩⟩

end ConnCheck
